import Mathlib

/-!
Shallow embedding of the brute-force login protection subsystem of
`src/middleware/accountLockout.js` (current variant, lines 1-338).

Modelling conventions:
* Timestamps are `Nat` milliseconds; every `Date.now()` / SQL `NOW()`
  occurring inside one call of an operation is the single parameter `now`
  (one call is treated as instantaneous).
* The two NodeCache instances are TTL key-value maps `String → Option (value × expiry)`;
  `set key v ttlSeconds` stores expiry `now + ttlSeconds*1000`, `get` hides expired entries.
* The MySQL table `login_attempts` is a map `(identifier, ip) → Option DbRecord`;
  the `INSERT ... ON DUPLICATE KEY UPDATE attempt_count = attempt_count + 1`
  statement is the single atomic step `dbUpsert`.
* Durable-tier availability is the flag `dbOk`: when false every `pool.execute`
  throws and control goes to the corresponding `catch` block of the source
  (the source swallows the error either way; only logging differs, which is not modelled).
* JS `Math.max(0, MAX_FAILED_ATTEMPTS - newCount)` is `Nat` truncated subtraction.
-/

namespace SoterosLockout

/-- `MAX_FAILED_ATTEMPTS = 5` (accountLockout.js line 14). -/
def MAX_FAILED_ATTEMPTS : Nat := 5

/-- `FIRST_LOCKOUT_THRESHOLD = 3` (line 16). -/
def FIRST_LOCKOUT_THRESHOLD : Nat := 3

/-- `FIRST_LOCKOUT_DURATION = 5 * 60 * 1000` ms (line 17). -/
def FIRST_LOCKOUT_DURATION : Nat := 5 * 60 * 1000

/-- `FINAL_LOCKOUT_DURATION = 30 * 60 * 1000` ms (line 18). -/
def FINAL_LOCKOUT_DURATION : Nat := 30 * 60 * 1000

/-- `getLockoutDuration(attemptCount)` (lines 25-32); total over all JS numbers,
so modelled over `Int`. -/
def getLockoutDuration (attemptCount : Int) : Nat :=
  if attemptCount ≥ (MAX_FAILED_ATTEMPTS : Int) then FINAL_LOCKOUT_DURATION
  else if attemptCount ≥ (FIRST_LOCKOUT_THRESHOLD : Int) then FIRST_LOCKOUT_DURATION
  else 0

/-- `getAttemptKey(identifier, ip)` (lines 40-42): template string, identifier verbatim. -/
def getAttemptKey (identifier ip : String) : String :=
  "login_attempt_" ++ identifier ++ "_" ++ ip

/-- The value NodeCache stores in `loginAttemptsCache`: `{ count, firstAttempt }`. -/
structure CacheEntry where
  count : Nat
  firstAttempt : Nat
deriving Repr, DecidableEq

/-- A row of the `login_attempts` table. -/
structure DbRecord where
  attempt_count : Nat
  created_at : Nat
  last_attempt : Nat
deriving Repr, DecidableEq

/-- The decision object `{ locked, remainingAttempts, lockoutUntil }` returned to callers. -/
structure Decision where
  locked : Bool
  remainingAttempts : Nat
  lockoutUntil : Option Nat
deriving Repr, DecidableEq

/-- A NodeCache-style TTL map: key to (value, absolute expiry time in ms). -/
abbrev TTLMap (α : Type) := String → Option (α × Nat)

/-- The empty cache. -/
def TTLMap.empty {α : Type} : TTLMap α := fun _ => none

/-- `cache.get(k)`: hidden once expired (NodeCache returns undefined for expired keys). -/
def TTLMap.get {α : Type} (c : TTLMap α) (now : Nat) (k : String) : Option α :=
  match c k with
  | some (v, exp) => if now < exp then some v else none
  | none => none

/-- `cache.set(k, v, ttl)` with absolute expiry `exp`. -/
def TTLMap.set {α : Type} (c : TTLMap α) (k : String) (v : α) (exp : Nat) : TTLMap α :=
  fun q => if q = k then some (v, exp) else c q

/-- `cache.del(k)`. -/
def TTLMap.del {α : Type} (c : TTLMap α) (k : String) : TTLMap α :=
  fun q => if q = k then none else c q

/-- The `login_attempts` table, keyed by the unique (identifier, ip_address) pair. -/
abbrev Db := String × String → Option DbRecord

/-- The empty table. -/
def emptyDb : Db := fun _ => none

/-- `SELECT attempt_count, last_attempt, created_at FROM login_attempts WHERE ...`. -/
def dbSelect (db : Db) (identifier ip : String) : Option DbRecord :=
  db (identifier, ip)

/-- The atomic `INSERT ... VALUES (?, ?, 1, NOW(), NOW()) ON DUPLICATE KEY UPDATE
attempt_count = attempt_count + 1, last_attempt = NOW()` (lines 90-97),
executed as one indivisible step at the durable tier. -/
def dbUpsert (db : Db) (identifier ip : String) (now : Nat) : Db :=
  fun q =>
    if q = (identifier, ip) then
      match db (identifier, ip) with
      | some r => some { r with attempt_count := r.attempt_count + 1, last_attempt := now }
      | none => some { attempt_count := 1, created_at := now, last_attempt := now }
    else db q

/-- `DELETE FROM login_attempts WHERE identifier = ? AND ip_address = ?`. -/
def dbDelete (db : Db) (identifier ip : String) : Db :=
  fun q => if q = (identifier, ip) then none else db q

/-- Durable attempt count for a key, `0` when no row exists. -/
def dbCountOf (db : Db) (identifier ip : String) : Nat :=
  match dbSelect db identifier ip with
  | some r => r.attempt_count
  | none => 0

/-- `created_at` a fresh upsert at time `now` leaves for a key:
kept from the existing row, `now` for a fresh insert. -/
def dbFirstOr (db : Db) (identifier ip : String) (now : Nat) : Nat :=
  match dbSelect db identifier ip with
  | some r => r.created_at
  | none => now

/-- Whole-subsystem state: both NodeCache instances, the table, and whether the
durable tier is reachable on this call (`dbOk = false` makes every `pool.execute` throw). -/
structure LockoutState where
  loginAttemptsCache : TTLMap CacheEntry
  recentAttemptsCache : TTLMap Nat
  db : Db
  dbOk : Bool

/-- The initial state: empty caches, empty table, durable tier reachable. -/
def initState : LockoutState :=
  { loginAttemptsCache := TTLMap.empty
    recentAttemptsCache := TTLMap.empty
    db := emptyDb
    dbOk := true }

/-- `clearFailedAttempts(identifier, ip)` (lines 172-191): deletes both cache keys,
then the durable row; a throwing durable tier is swallowed by the catch (row kept). -/
def clearFailedAttempts (st : LockoutState) (identifier ip : String) : LockoutState :=
  let key := getAttemptKey identifier ip
  let recentKey := "recent_" ++ key
  { st with
    loginAttemptsCache := st.loginAttemptsCache.del key
    recentAttemptsCache := st.recentAttemptsCache.del recentKey
    db := if st.dbOk then dbDelete st.db identifier ip else st.db }

/-- The cache entry after `checkAccountLockout`'s sync step (lines 225-232): the
cache is overwritten from the durable row when absent or behind, else kept. -/
def syncEntry (attempts0 : Option CacheEntry) (r : DbRecord) : CacheEntry :=
  match attempts0 with
  | some a =>
      if a.count < r.attempt_count then
        { count := r.attempt_count, firstAttempt := r.created_at }
      else a
  | none => { count := r.attempt_count, firstAttempt := r.created_at }

/-- The sync step itself, returning the reconciled local `attempts` variable and the
state (cache written only when it was absent or behind). -/
def syncStep (st : LockoutState) (now : Nat) (key : String)
    (attempts0 : Option CacheEntry) (r : DbRecord) : Option CacheEntry × LockoutState :=
  match attempts0 with
  | some a =>
      if a.count < r.attempt_count then
        let a2 : CacheEntry := { count := r.attempt_count, firstAttempt := r.created_at }
        (some a2,
          { st with loginAttemptsCache := st.loginAttemptsCache.set key a2 (now + 900000) })
      else (some a, st)
  | none =>
      let a2 : CacheEntry := { count := r.attempt_count, firstAttempt := r.created_at }
      (some a2,
        { st with loginAttemptsCache := st.loginAttemptsCache.set key a2 (now + 900000) })

/-- The cache-only tail of `checkAccountLockout` (lines 250-284), reached when the
durable tier threw, had no row, or had a row with no active lockout window. -/
def checkCacheTail (st : LockoutState) (now : Nat) (identifier ip : String)
    (attempts : Option CacheEntry) : Decision × LockoutState :=
  match attempts with
  | none =>
      ({ locked := false, remainingAttempts := MAX_FAILED_ATTEMPTS, lockoutUntil := none }, st)
  | some a =>
      if a.count < MAX_FAILED_ATTEMPTS then
        ({ locked := false, remainingAttempts := MAX_FAILED_ATTEMPTS - a.count,
           lockoutUntil := none }, st)
      else
        let lockoutDuration := getLockoutDuration (a.count : Int)
        if lockoutDuration > 0 then
          -- the cache has no lastAttempt, so the source uses firstAttempt as fallback (line 265)
          let lockoutUntil := a.firstAttempt + lockoutDuration
          if now < lockoutUntil then
            ({ locked := true, remainingAttempts := 0, lockoutUntil := some lockoutUntil }, st)
          else
            ({ locked := false, remainingAttempts := MAX_FAILED_ATTEMPTS, lockoutUntil := none },
              clearFailedAttempts st identifier ip)
        else
          ({ locked := false, remainingAttempts := MAX_FAILED_ATTEMPTS - a.count,
             lockoutUntil := none }, st)

/-- `checkAccountLockout(identifier, ip)` (lines 199-285). The source checks
`Date.now() >= lockoutUntil` (expired), then syncs the cache, then checks
`Date.now() < lockoutUntil` (locked); with one `now` per call the second test is
exactly the negation of the first, so it is the `else` branch here and the sync
runs before the locked return, as in the source. -/
def checkAccountLockout (st : LockoutState) (now : Nat) (identifier ip : String) :
    Decision × LockoutState :=
  let key := getAttemptKey identifier ip
  let attempts0 := st.loginAttemptsCache.get now key
  if st.dbOk then
    match dbSelect st.db identifier ip with
    | some r =>
        let lockoutDuration := getLockoutDuration (r.attempt_count : Int)
        if lockoutDuration > 0 then
          let lockoutUntil := r.last_attempt + lockoutDuration
          if lockoutUntil ≤ now then
            -- lockout expired: clear attempts, report fully reset (lines 218-222)
            ({ locked := false, remainingAttempts := MAX_FAILED_ATTEMPTS, lockoutUntil := none },
              clearFailedAttempts st identifier ip)
          else
            -- sync cache with database, then report locked (lines 225-241)
            let s := syncStep st now key attempts0 r
            ({ locked := true, remainingAttempts := 0, lockoutUntil := some lockoutUntil }, s.2)
        else
          -- no lockout window on the row: sync, then fall through to the cache tail
          let s := syncStep st now key attempts0 r
          checkCacheTail s.2 now identifier ip s.1
    | none => checkCacheTail st now identifier ip attempts0
  else
    checkCacheTail st now identifier ip attempts0

/-- Lines 148-164 of `recordFailedAttempt`: the common tail computing the decision
from `newCount` and writing the cache (reached on the catch path and on the
dead empty-read-back path); here `lockoutUntil` is `Date.now() + duration`. -/
def recordTail (st : LockoutState) (now : Nat) (key : String)
    (newCount firstAttempt : Nat) : Decision × LockoutState :=
  let lockoutDuration := getLockoutDuration (newCount : Int)
  let isLocked := lockoutDuration > 0
  let st2 :=
    { st with
      loginAttemptsCache :=
        st.loginAttemptsCache.set key { count := newCount, firstAttempt := firstAttempt }
          (now + 900000) }
  ({ locked := isLocked
     remainingAttempts := if isLocked then 0 else MAX_FAILED_ATTEMPTS - newCount
     lockoutUntil := if isLocked then some (now + lockoutDuration) else none }, st2)

/-- Lines 69-164 of `recordFailedAttempt`: the non-deduplicated path — set the
dedup marker, pre-check the lockout, then either return the locked decision
unchanged or apply the atomic durable increment (cache increment when the
durable tier throws). -/
def recordIncrement (st : LockoutState) (now : Nat) (identifier ip : String) :
    Decision × LockoutState :=
  let key := getAttemptKey identifier ip
  let recentKey := "recent_" ++ key
  let st1 :=
    { st with recentAttemptsCache := st.recentAttemptsCache.set recentKey now (now + 3000) }
  let c := checkAccountLockout st1 now identifier ip
  if c.1.locked then
    ({ locked := true, remainingAttempts := 0, lockoutUntil := c.1.lockoutUntil }, c.2)
  else
    let st2 := c.2
    if st2.dbOk then
      let db2 := dbUpsert st2.db identifier ip now
      let st3 := { st2 with db := db2 }
      match dbSelect db2 identifier ip with
      | some r =>
          let newCount := r.attempt_count
          let firstAttempt := r.created_at
          let lastAttempt := r.last_attempt
          let lockoutDuration := getLockoutDuration (newCount : Int)
          let lockoutUntil :=
            if lockoutDuration > 0 then some (lastAttempt + lockoutDuration) else none
          let isLocked := lockoutDuration > 0
          let st4 :=
            { st3 with
              loginAttemptsCache :=
                st3.loginAttemptsCache.set key
                  { count := newCount, firstAttempt := firstAttempt } (now + 900000) }
          ({ locked := isLocked
             remainingAttempts := if isLocked then 0 else MAX_FAILED_ATTEMPTS - newCount
             lockoutUntil := lockoutUntil }, st4)
      | none =>
          -- dead in practice (an upsert always leaves a row); source falls through
          -- to the tail with the initial newCount = 1, firstAttempt = Date.now()
          recordTail st3 now key 1 now
    else
      -- catch: fallback to cache-based tracking (lines 130-146)
      let attempts :=
        match st2.loginAttemptsCache.get now key with
        | some a => a
        | none => ({ count := 0, firstAttempt := now } : CacheEntry)
      let newCount := attempts.count + 1
      let st3 :=
        { st2 with
          loginAttemptsCache :=
            st2.loginAttemptsCache.set key
              { count := newCount, firstAttempt := attempts.firstAttempt } (now + 900000) }
      recordTail st3 now key newCount attempts.firstAttempt

/-- `recordFailedAttempt(identifier, ip)` (lines 50-165): dedup suppression within
3 seconds (return a fresh check without incrementing), else the increment path. -/
def recordFailedAttempt (st : LockoutState) (now : Nat) (identifier ip : String) :
    Decision × LockoutState :=
  let key := getAttemptKey identifier ip
  let recentKey := "recent_" ++ key
  match st.recentAttemptsCache.get now recentKey with
  | some t =>
      if now - t < 3000 then
        let c := checkAccountLockout st now identifier ip
        ({ locked := c.1.locked, remainingAttempts := c.1.remainingAttempts,
           lockoutUntil := c.1.lockoutUntil }, c.2)
      else recordIncrement st now identifier ip
  | none => recordIncrement st now identifier ip

/-- The well-formedness of a decision object handed to the caller: a bounded
remaining-attempts budget, a locked decision always carries `lockoutUntil` and a
zero budget, an unlocked one carries no `lockoutUntil`. -/
def wfDecision (d : Decision) : Prop :=
  d.remainingAttempts ≤ MAX_FAILED_ATTEMPTS ∧
    (d.locked = true → d.remainingAttempts = 0 ∧ d.lockoutUntil ≠ none) ∧
    (d.locked = false → d.lockoutUntil = none)

instance (d : Decision) : Decidable (wfDecision d) := by
  unfold wfDecision; infer_instance

/-- The attempt count visible in the login-attempts cache for a key, 0 when absent or expired. -/
def cacheCountOf (st : LockoutState) (now : Nat) (k : String) : Nat :=
  match st.loginAttemptsCache.get now k with
  | some a => a.count
  | none => 0

/-- The firstAttempt visible in the cache for a key; `now` when absent, matching the
catch-branch default `{ count: 0, firstAttempt: Date.now() }` of the recorder. -/
def cacheFirstOr (st : LockoutState) (now : Nat) (k : String) : Nat :=
  match st.loginAttemptsCache.get now k with
  | some a => a.firstAttempt
  | none => now

/-- Folding the atomic durable upsert over a list of call timestamps. -/
def upsertRun (db : Db) (identifier ip : String) (ts : List Nat) : Db :=
  ts.foldl (fun d t => dbUpsert d identifier ip t) db

end SoterosLockout
namespace SoterosLockout

/-- A four-call scenario for one fresh key with the durable tier up: failures recorded
at 0, 4000 and 8000 ms (each outside the 3-second dedup window), the third locking the
key for 5 minutes, and a fourth failure at 308000 ms, right when that lockout expires. -/
def runA1 : Decision × LockoutState := recordFailedAttempt initState 0 "a" "b"

/-- Second call of the four-call scenario. -/
def runA2 : Decision × LockoutState := recordFailedAttempt runA1.2 4000 "a" "b"

/-- Third call of the four-call scenario. -/
def runA3 : Decision × LockoutState := recordFailedAttempt runA2.2 8000 "a" "b"

/-- Fourth call of the four-call scenario, issued at the lockout-expiry instant. -/
def runA4 : Decision × LockoutState := recordFailedAttempt runA3.2 308000 "a" "b"

/-- A state with a stale cached count (1) and a locked durable row (count 3, last
failure at 1000 ms, so locked until 301000 ms). -/
def lockedStaleState : LockoutState :=
  { loginAttemptsCache :=
      TTLMap.set TTLMap.empty (getAttemptKey "a@b.c" "1.1.1.1")
        { count := 1, firstAttempt := 0 } 1000000
    recentAttemptsCache := TTLMap.empty
    db := fun q =>
      if q = ("a@b.c", "1.1.1.1") then
        some { attempt_count := 3, created_at := 0, last_attempt := 1000 }
      else none
    dbOk := true }

/-- The baseline state with the durable tier unavailable (every statement throws). -/
def degradedInit : LockoutState :=
  { initState with dbOk := false }

/-- Four degraded-mode failures for one key at 0, 4000, 8000 and 12000 ms (each
outside the dedup window); the cache then holds count 4, firstAttempt 0. -/
def degradedFour : LockoutState :=
  (recordFailedAttempt (recordFailedAttempt (recordFailedAttempt
    (recordFailedAttempt degradedInit 0 "a" "b").2 4000 "a" "b").2 8000 "a" "b").2
    12000 "a" "b").2

/-- The fifth degraded-mode failure, at 16000 ms: the cache reaches count 5 and the
recorder reports a 30-minute lockout measured from this latest failure. -/
def degradedFive : Decision × LockoutState := recordFailedAttempt degradedFour 16000 "a" "b"

/-- A state whose durable row for the key holds count 2 (below any lockout): the next
recorded failure raises it to 3 and triggers the 5-minute lockout. -/
def twoCountState : LockoutState :=
  { loginAttemptsCache := TTLMap.empty
    recentAttemptsCache := TTLMap.empty
    db := fun q =>
      if q = ("a", "b") then
        some { attempt_count := 2, created_at := 0, last_attempt := 500 }
      else none
    dbOk := true }

/-- A degraded-mode state whose cache alone holds a locked count of 5 recorded from
firstAttempt 0 (the cache stores no last-attempt timestamp). -/
def degradedLockedCacheState : LockoutState :=
  { loginAttemptsCache :=
      TTLMap.set TTLMap.empty (getAttemptKey "a" "b") { count := 5, firstAttempt := 0 } 900000
    recentAttemptsCache := TTLMap.empty
    db := emptyDb
    dbOk := false }

theorem TTLMap.get_empty {α : Type} (now : Nat) (k : String) :
    (TTLMap.empty : TTLMap α).get now k = none := rfl

theorem TTLMap.get_set_same {α : Type} (c : TTLMap α) (now : Nat) (k : String) (v : α)
    (exp : Nat) : (c.set k v exp).get now k = if now < exp then some v else none := by
  simp [TTLMap.get, TTLMap.set]

theorem TTLMap.get_set_other {α : Type} (c : TTLMap α) (now : Nat) {q k : String} (v : α)
    (exp : Nat) (h : q ≠ k) : (c.set k v exp).get now q = c.get now q := by
  simp [TTLMap.get, TTLMap.set, h]

theorem TTLMap.get_del_same {α : Type} (c : TTLMap α) (now : Nat) (k : String) :
    (c.del k).get now k = none := by
  simp [TTLMap.get, TTLMap.del]

theorem TTLMap.del_del {α : Type} (c : TTLMap α) (k : String) :
    (c.del k).del k = c.del k := by
  funext q; simp [TTLMap.del]; intro h; simp [h]

theorem TTLMap.set_set_same {α : Type} (c : TTLMap α) (k : String) (v1 v2 : α)
    (e1 e2 : Nat) : (c.set k v1 e1).set k v2 e2 = c.set k v2 e2 := by
  funext q; by_cases h : q = k <;> simp [TTLMap.set, h]

theorem dbSelect_upsert_same (db : Db) (identifier ip : String) (now : Nat) :
    dbSelect (dbUpsert db identifier ip now) identifier ip =
      some { attempt_count := dbCountOf db identifier ip + 1
             created_at := dbFirstOr db identifier ip now
             last_attempt := now } := by
  simp only [dbSelect, dbUpsert, dbCountOf, dbFirstOr, if_pos rfl]
  cases db (identifier, ip) <;> rfl

theorem dbCountOf_upsert_same (db : Db) (identifier ip : String) (now : Nat) :
    dbCountOf (dbUpsert db identifier ip now) identifier ip =
      dbCountOf db identifier ip + 1 := by
  simp [dbCountOf, dbSelect_upsert_same]

theorem dbSelect_delete_same (db : Db) (identifier ip : String) :
    dbSelect (dbDelete db identifier ip) identifier ip = none := by
  simp [dbSelect, dbDelete]

theorem dbDelete_idem (db : Db) (identifier ip : String) :
    dbDelete (dbDelete db identifier ip) identifier ip = dbDelete db identifier ip := by
  funext q; simp [dbDelete]; intro h; simp [h]

theorem getLockoutDuration_lt3 {n : Nat} (h : n < 3) :
    getLockoutDuration (n : Int) = 0 := by
  unfold getLockoutDuration
  rw [if_neg (by unfold MAX_FAILED_ATTEMPTS; omega), if_neg (by unfold FIRST_LOCKOUT_THRESHOLD; omega)]

theorem getLockoutDuration_mid {n : Nat} (h3 : 3 ≤ n) (h5 : n < 5) :
    getLockoutDuration (n : Int) = FIRST_LOCKOUT_DURATION := by
  unfold getLockoutDuration
  rw [if_neg (by unfold MAX_FAILED_ATTEMPTS; omega), if_pos (by unfold FIRST_LOCKOUT_THRESHOLD; omega)]

theorem getLockoutDuration_ge5 {n : Nat} (h : 5 ≤ n) :
    getLockoutDuration (n : Int) = FINAL_LOCKOUT_DURATION := by
  unfold getLockoutDuration
  rw [if_pos (by unfold MAX_FAILED_ATTEMPTS; omega)]

theorem getLockoutDuration_pos_iff (n : Nat) :
    0 < getLockoutDuration (n : Int) ↔ FIRST_LOCKOUT_THRESHOLD ≤ n := by
  unfold FIRST_LOCKOUT_THRESHOLD
  constructor
  · intro h
    by_contra hn
    rw [getLockoutDuration_lt3 (by omega)] at h
    omega
  · intro h
    rcases Nat.lt_or_ge n 5 with h5 | h5
    · rw [getLockoutDuration_mid h h5]; unfold FIRST_LOCKOUT_DURATION; omega
    · rw [getLockoutDuration_ge5 h5]; unfold FINAL_LOCKOUT_DURATION; omega

theorem recentKey_ne_key (identifier ip : String) :
    "recent_" ++ getAttemptKey identifier ip ≠ getAttemptKey identifier ip := by
  intro h
  have hlen := congrArg String.length h
  rw [String.length_append, show ("recent_" : String).length = 7 from rfl] at hlen
  omega

end SoterosLockout
namespace SoterosLockout

theorem checkCacheTail_none (st : LockoutState) (now : Nat) (identifier ip : String) :
    checkCacheTail st now identifier ip none =
      ({ locked := false, remainingAttempts := MAX_FAILED_ATTEMPTS, lockoutUntil := none }, st) :=
  rfl

theorem checkCacheTail_low (st : LockoutState) (now : Nat) (identifier ip : String)
    {a : CacheEntry} (h : a.count < MAX_FAILED_ATTEMPTS) :
    checkCacheTail st now identifier ip (some a) =
      ({ locked := false, remainingAttempts := MAX_FAILED_ATTEMPTS - a.count,
         lockoutUntil := none }, st) := by
  simp only [checkCacheTail]
  rw [if_pos h]

theorem checkCacheTail_locked (st : LockoutState) (now : Nat) (identifier ip : String)
    {a : CacheEntry} (h : MAX_FAILED_ATTEMPTS ≤ a.count)
    (hl : now < a.firstAttempt + getLockoutDuration (a.count : Int)) :
    checkCacheTail st now identifier ip (some a) =
      ({ locked := true, remainingAttempts := 0,
         lockoutUntil := some (a.firstAttempt + getLockoutDuration (a.count : Int)) }, st) := by
  simp only [checkCacheTail]
  rw [if_neg (by omega)]
  have hd : getLockoutDuration (a.count : Int) = FINAL_LOCKOUT_DURATION :=
    getLockoutDuration_ge5 (by unfold MAX_FAILED_ATTEMPTS at h; omega)
  rw [if_pos (by rw [hd]; unfold FINAL_LOCKOUT_DURATION; omega), if_pos hl]

theorem checkCacheTail_cache_expired (st : LockoutState) (now : Nat) (identifier ip : String)
    {a : CacheEntry} (h : MAX_FAILED_ATTEMPTS ≤ a.count)
    (hl : a.firstAttempt + getLockoutDuration (a.count : Int) ≤ now) :
    checkCacheTail st now identifier ip (some a) =
      ({ locked := false, remainingAttempts := MAX_FAILED_ATTEMPTS, lockoutUntil := none },
        clearFailedAttempts st identifier ip) := by
  simp only [checkCacheTail]
  rw [if_neg (by omega)]
  have hd : getLockoutDuration (a.count : Int) = FINAL_LOCKOUT_DURATION :=
    getLockoutDuration_ge5 (by unfold MAX_FAILED_ATTEMPTS at h; omega)
  rw [if_pos (by rw [hd]; unfold FINAL_LOCKOUT_DURATION; omega), if_neg (by omega)]

theorem check_db_locked (st : LockoutState) (now : Nat) (identifier ip : String)
    {r : DbRecord} (hok : st.dbOk = true) (hr : dbSelect st.db identifier ip = some r)
    (hd : 0 < getLockoutDuration (r.attempt_count : Int))
    (hl : now < r.last_attempt + getLockoutDuration (r.attempt_count : Int)) :
    checkAccountLockout st now identifier ip =
      ({ locked := true, remainingAttempts := 0,
         lockoutUntil := some (r.last_attempt + getLockoutDuration (r.attempt_count : Int)) },
        (syncStep st now (getAttemptKey identifier ip)
          (st.loginAttemptsCache.get now (getAttemptKey identifier ip)) r).2) := by
  unfold checkAccountLockout
  rw [hok, if_pos rfl, hr]
  simp only
  rw [if_pos hd, if_neg (by omega)]

theorem check_db_expired (st : LockoutState) (now : Nat) (identifier ip : String)
    {r : DbRecord} (hok : st.dbOk = true) (hr : dbSelect st.db identifier ip = some r)
    (hd : 0 < getLockoutDuration (r.attempt_count : Int))
    (hl : r.last_attempt + getLockoutDuration (r.attempt_count : Int) ≤ now) :
    checkAccountLockout st now identifier ip =
      ({ locked := false, remainingAttempts := MAX_FAILED_ATTEMPTS, lockoutUntil := none },
        clearFailedAttempts st identifier ip) := by
  unfold checkAccountLockout
  rw [hok, if_pos rfl, hr]
  simp only
  rw [if_pos hd, if_pos hl]

theorem check_db_nolock (st : LockoutState) (now : Nat) (identifier ip : String)
    {r : DbRecord} (hok : st.dbOk = true) (hr : dbSelect st.db identifier ip = some r)
    (hd : getLockoutDuration (r.attempt_count : Int) = 0) :
    checkAccountLockout st now identifier ip =
      checkCacheTail
        (syncStep st now (getAttemptKey identifier ip)
          (st.loginAttemptsCache.get now (getAttemptKey identifier ip)) r).2
        now identifier ip
        (some (syncEntry (st.loginAttemptsCache.get now (getAttemptKey identifier ip)) r)) := by
  unfold checkAccountLockout
  rw [hok, if_pos rfl, hr]
  simp only
  rw [if_neg (by omega)]
  congr 1
  unfold syncStep syncEntry
  cases st.loginAttemptsCache.get now (getAttemptKey identifier ip) with
  | none => rfl
  | some a => by_cases hc : a.count < r.attempt_count <;> simp [hc]

theorem check_db_absent (st : LockoutState) (now : Nat) (identifier ip : String)
    (hok : st.dbOk = true) (hr : dbSelect st.db identifier ip = none) :
    checkAccountLockout st now identifier ip =
      checkCacheTail st now identifier ip
        (st.loginAttemptsCache.get now (getAttemptKey identifier ip)) := by
  unfold checkAccountLockout
  rw [hok, if_pos rfl, hr]

theorem check_noDb (st : LockoutState) (now : Nat) (identifier ip : String)
    (hok : st.dbOk = false) :
    checkAccountLockout st now identifier ip =
      checkCacheTail st now identifier ip
        (st.loginAttemptsCache.get now (getAttemptKey identifier ip)) := by
  unfold checkAccountLockout
  rw [hok]
  simp only [if_neg (by simp : ¬ (false = true))]

end SoterosLockout
namespace SoterosLockout

theorem record_marker_none (st : LockoutState) (now : Nat) (identifier ip : String)
    (hm : st.recentAttemptsCache.get now ("recent_" ++ getAttemptKey identifier ip) = none) :
    recordFailedAttempt st now identifier ip = recordIncrement st now identifier ip := by
  simp only [recordFailedAttempt, hm]

theorem record_marker_stale (st : LockoutState) (now : Nat) (identifier ip : String) {t : Nat}
    (hm : st.recentAttemptsCache.get now ("recent_" ++ getAttemptKey identifier ip) = some t)
    (ht : ¬ now - t < 3000) :
    recordFailedAttempt st now identifier ip = recordIncrement st now identifier ip := by
  simp only [recordFailedAttempt, hm]
  rw [if_neg ht]

theorem record_marker_fresh (st : LockoutState) (now : Nat) (identifier ip : String) {t : Nat}
    (hm : st.recentAttemptsCache.get now ("recent_" ++ getAttemptKey identifier ip) = some t)
    (ht : now - t < 3000) :
    recordFailedAttempt st now identifier ip = checkAccountLockout st now identifier ip := by
  simp only [recordFailedAttempt, hm]
  rw [if_pos ht]

theorem check_clean (st : LockoutState) (now : Nat) (identifier ip : String)
    (hok : st.dbOk = true)
    (hdur : getLockoutDuration ((dbCountOf st.db identifier ip : Nat) : Int) = 0)
    (hc : cacheCountOf st now (getAttemptKey identifier ip) < MAX_FAILED_ATTEMPTS) :
    (checkAccountLockout st now identifier ip).1.locked = false ∧
    ((checkAccountLockout st now identifier ip).2 = st ∨
      ∃ e : CacheEntry,
        (checkAccountLockout st now identifier ip).2 =
          { st with loginAttemptsCache :=
              st.loginAttemptsCache.set (getAttemptKey identifier ip) e (now + 900000) }) := by
  rcases hsel : dbSelect st.db identifier ip with _ | r
  · rw [check_db_absent st now identifier ip hok hsel]
    rcases ha : st.loginAttemptsCache.get now (getAttemptKey identifier ip) with _ | a
    · rw [checkCacheTail_none]
      exact ⟨rfl, Or.inl rfl⟩
    · have hac : a.count < MAX_FAILED_ATTEMPTS := by
        unfold cacheCountOf at hc; rw [ha] at hc; exact hc
      rw [checkCacheTail_low st now identifier ip hac]
      exact ⟨rfl, Or.inl rfl⟩
  · have hcnt : dbCountOf st.db identifier ip = r.attempt_count := by
      unfold dbCountOf; rw [hsel]
    rw [hcnt] at hdur
    rw [check_db_nolock st now identifier ip hok hsel hdur]
    have hr3 : r.attempt_count < FIRST_LOCKOUT_THRESHOLD := by
      by_contra hcontra
      have := (getLockoutDuration_pos_iff r.attempt_count).2 (by omega)
      omega
    rcases ha : st.loginAttemptsCache.get now (getAttemptKey identifier ip) with _ | a
    · have hse : syncEntry none r =
          { count := r.attempt_count, firstAttempt := r.created_at } := rfl
      rw [hse]
      have hlow : ({ count := r.attempt_count, firstAttempt := r.created_at } : CacheEntry).count
          < MAX_FAILED_ATTEMPTS := by
        show r.attempt_count < MAX_FAILED_ATTEMPTS
        unfold MAX_FAILED_ATTEMPTS; unfold FIRST_LOCKOUT_THRESHOLD at hr3; omega
      rw [checkCacheTail_low _ now identifier ip hlow]
      refine ⟨rfl, Or.inr ⟨{ count := r.attempt_count, firstAttempt := r.created_at }, ?_⟩⟩
      unfold syncStep
      rfl
    · have hac : a.count < MAX_FAILED_ATTEMPTS := by
        unfold cacheCountOf at hc; rw [ha] at hc; exact hc
      by_cases hlt : a.count < r.attempt_count
      · have hse : syncEntry (some a) r =
            { count := r.attempt_count, firstAttempt := r.created_at } := by
          simp only [syncEntry]; rw [if_pos hlt]
        rw [hse]
        have hlow : ({ count := r.attempt_count, firstAttempt := r.created_at } : CacheEntry).count
            < MAX_FAILED_ATTEMPTS := by
          show r.attempt_count < MAX_FAILED_ATTEMPTS
          unfold MAX_FAILED_ATTEMPTS; unfold FIRST_LOCKOUT_THRESHOLD at hr3; omega
        rw [checkCacheTail_low _ now identifier ip hlow]
        refine ⟨rfl, Or.inr ⟨{ count := r.attempt_count, firstAttempt := r.created_at }, ?_⟩⟩
        simp only [syncStep]
        rw [if_pos hlt]
      · have hse : syncEntry (some a) r = a := by
          simp only [syncEntry]; rw [if_neg hlt]
        rw [hse]
        rw [checkCacheTail_low _ now identifier ip hac]
        have hst : (syncStep st now (getAttemptKey identifier ip) (some a) r).2 = st := by
          simp only [syncStep]; rw [if_neg hlt]
        rw [hst]
        exact ⟨rfl, Or.inl rfl⟩

end SoterosLockout
namespace SoterosLockout

theorem recordIncrement_clean (st : LockoutState) (now : Nat) (identifier ip : String)
    (hok : st.dbOk = true)
    (hdur : getLockoutDuration ((dbCountOf st.db identifier ip : Nat) : Int) = 0)
    (hc : cacheCountOf st now (getAttemptKey identifier ip) < MAX_FAILED_ATTEMPTS) :
    recordIncrement st now identifier ip =
      ({ locked := getLockoutDuration ((dbCountOf st.db identifier ip + 1 : Nat) : Int) > 0
         remainingAttempts :=
           if getLockoutDuration ((dbCountOf st.db identifier ip + 1 : Nat) : Int) > 0 then 0
           else MAX_FAILED_ATTEMPTS - (dbCountOf st.db identifier ip + 1)
         lockoutUntil :=
           if getLockoutDuration ((dbCountOf st.db identifier ip + 1 : Nat) : Int) > 0 then
             some (now + getLockoutDuration ((dbCountOf st.db identifier ip + 1 : Nat) : Int))
           else none },
       { loginAttemptsCache :=
           st.loginAttemptsCache.set (getAttemptKey identifier ip)
             { count := dbCountOf st.db identifier ip + 1
               firstAttempt := dbFirstOr st.db identifier ip now } (now + 900000)
         recentAttemptsCache :=
           st.recentAttemptsCache.set ("recent_" ++ getAttemptKey identifier ip) now (now + 3000)
         db := dbUpsert st.db identifier ip now
         dbOk := true }) := by
  obtain ⟨hlocked, hstate⟩ := check_clean
    { st with recentAttemptsCache :=
        st.recentAttemptsCache.set ("recent_" ++ getAttemptKey identifier ip) now (now + 3000) }
    now identifier ip hok hdur hc
  unfold recordIncrement
  simp only []
  rw [hlocked]
  rw [if_neg Bool.false_ne_true]
  rcases hstate with hst | ⟨e, hst⟩
  · rw [hst]
    simp only [hok, if_pos rfl]
    rw [dbSelect_upsert_same]
    simp only []
    rfl
  · rw [hst]
    simp only [hok, if_pos rfl]
    rw [dbSelect_upsert_same]
    simp only []
    rw [TTLMap.set_set_same]
    rw [if_pos trivial]

end SoterosLockout
namespace SoterosLockout

/-- C2: `getLockoutDuration` is a pure total function of the attempt count: for every
integer count it returns 0 below 3, 5 minutes (300000 ms) for counts 3-4, and
30 minutes (1800000 ms) from 5 on, with no error condition. -/
theorem C2_lockout_policy_schedule (count : Int) :
    (count < 3 → getLockoutDuration count = 0) ∧
    (3 ≤ count → count < 5 → getLockoutDuration count = 5 * 60 * 1000) ∧
    (5 ≤ count → getLockoutDuration count = 30 * 60 * 1000) := by
  refine ⟨fun h => ?_, fun h3 h5 => ?_, fun h5 => ?_⟩ <;>
    unfold getLockoutDuration MAX_FAILED_ATTEMPTS FIRST_LOCKOUT_THRESHOLD
      FIRST_LOCKOUT_DURATION FINAL_LOCKOUT_DURATION <;>
    split_ifs with h1 h2 <;> omega

/-- C2 witness: the schedule evaluated at the concrete counts 2, 4 and 5. -/
theorem C2_lockout_policy_schedule_witness :
    getLockoutDuration 2 = 0 ∧ getLockoutDuration 4 = 5 * 60 * 1000 ∧
      getLockoutDuration 5 = 30 * 60 * 1000 :=
  ⟨(C2_lockout_policy_schedule 2).1 (by decide),
   (C2_lockout_policy_schedule 4).2.1 (by decide) (by decide),
   (C2_lockout_policy_schedule 5).2.2 (by decide)⟩

/-- C7 counterexample: `getAttemptKey` does not lower-case the identifier, so the
tracking keys for 'User@X.com' and 'user@x.com' from the same origin address differ,
refuting case-insensitive key derivation. -/
theorem C7_case_insensitive_counterexample :
    getAttemptKey "User@X.com" "1.2.3.4" ≠ getAttemptKey "user@x.com" "1.2.3.4" := by
  decide

/-- C7 amended: key derivation embeds the identifier verbatim
(`login_attempt_identifier_ip`) and, for a fixed origin address, two identifiers
produce the same tracking key exactly when they are equal as strings — so
identifiers differing only in case accumulate on distinct counters. -/
theorem C7_key_verbatim_case_sensitive (identifier ip : String) :
    getAttemptKey identifier ip = "login_attempt_" ++ identifier ++ "_" ++ ip ∧
    ∀ identifier2 : String,
      (getAttemptKey identifier ip = getAttemptKey identifier2 ip ↔
        identifier = identifier2) := by
  refine ⟨rfl, fun identifier2 => ⟨fun h => ?_, fun h => by rw [h]⟩⟩
  unfold getAttemptKey at h
  have hd := congrArg String.data h
  simp only [String.data_append, List.append_assoc] at hd
  have hd2 := List.append_cancel_left hd
  exact String.ext (List.append_cancel_right hd2)

/-- C7 witness: the amended equivalence applied at a concrete identifier and origin. -/
theorem C7_key_verbatim_case_sensitive_witness :
    getAttemptKey "User@X.com" "1.2.3.4" = getAttemptKey "User@X.com" "1.2.3.4" :=
  ((C7_key_verbatim_case_sensitive "User@X.com" "1.2.3.4").2 "User@X.com").mpr rfl

/-- C9: `clearFailedAttempts` is an idempotent delete, and clearing followed
immediately by `checkAccountLockout` always reports unlocked with the full budget
of `MAX_FAILED_ATTEMPTS` (5) remaining attempts. -/
theorem C9_clear_idempotent_then_unlocked (st : LockoutState) (now : Nat)
    (identifier ip : String) :
    clearFailedAttempts (clearFailedAttempts st identifier ip) identifier ip =
      clearFailedAttempts st identifier ip ∧
    (checkAccountLockout (clearFailedAttempts st identifier ip) now identifier ip).1 =
      { locked := false, remainingAttempts := MAX_FAILED_ATTEMPTS, lockoutUntil := none } := by
  have hclear : clearFailedAttempts st identifier ip =
      { loginAttemptsCache := st.loginAttemptsCache.del (getAttemptKey identifier ip)
        recentAttemptsCache :=
          st.recentAttemptsCache.del ("recent_" ++ getAttemptKey identifier ip)
        db := if st.dbOk then dbDelete st.db identifier ip else st.db
        dbOk := st.dbOk } := rfl
  constructor
  · rw [hclear]
    unfold clearFailedAttempts
    simp only [TTLMap.del_del]
    cases hok : st.dbOk
    · simp
    · simp [dbDelete_idem]
  · rw [hclear]
    cases hok : st.dbOk
    · rw [check_noDb _ now identifier ip (by simp)]
      rw [show (st.loginAttemptsCache.del (getAttemptKey identifier ip)).get now
          (getAttemptKey identifier ip) = none from TTLMap.get_del_same _ _ _]
      rw [checkCacheTail_none]
    · rw [check_db_absent _ now identifier ip (by simp)
        (by simp [dbSelect_delete_same])]
      rw [show (st.loginAttemptsCache.del (getAttemptKey identifier ip)).get now
          (getAttemptKey identifier ip) = none from TTLMap.get_del_same _ _ _]
      rw [checkCacheTail_none]

/-- C10: in cache-only degraded mode (durable tier unavailable) the checker reports
unlocked for every cached count strictly below `MAX_FAILED_ATTEMPTS` (5) — including
counts 3 and 4, whose policy duration is positive: the intermediate 5-minute tier is
enforced only through the durable-tier path. -/
theorem C10_degraded_no_intermediate_lockout (st : LockoutState) (now : Nat)
    (identifier ip : String) {a : CacheEntry}
    (hok : st.dbOk = false)
    (ha : st.loginAttemptsCache.get now (getAttemptKey identifier ip) = some a)
    (hlt : a.count < MAX_FAILED_ATTEMPTS) :
    (checkAccountLockout st now identifier ip).1 =
      { locked := false, remainingAttempts := MAX_FAILED_ATTEMPTS - a.count,
        lockoutUntil := none } ∧
    (FIRST_LOCKOUT_THRESHOLD ≤ a.count → 0 < getLockoutDuration (a.count : Int)) := by
  constructor
  · rw [check_noDb st now identifier ip hok, ha, checkCacheTail_low st now identifier ip hlt]
  · exact fun h => (getLockoutDuration_pos_iff a.count).2 h

/-- C10 witness: a degraded-mode state with cached count 4 (policy duration 5 minutes)
is reported unlocked with one remaining attempt. -/
theorem C10_degraded_no_intermediate_lockout_witness :
    (checkAccountLockout
        { loginAttemptsCache :=
            TTLMap.set TTLMap.empty (getAttemptKey "u@x.com" "9.9.9.9")
              { count := 4, firstAttempt := 0 } 900000
          recentAttemptsCache := TTLMap.empty
          db := emptyDb
          dbOk := false } 1000 "u@x.com" "9.9.9.9").1 =
      { locked := false, remainingAttempts := 1, lockoutUntil := none } := by
  have h := @C10_degraded_no_intermediate_lockout
    { loginAttemptsCache :=
        TTLMap.set TTLMap.empty (getAttemptKey "u@x.com" "9.9.9.9")
          { count := 4, firstAttempt := 0 } 900000
      recentAttemptsCache := TTLMap.empty
      db := emptyDb
      dbOk := false } 1000 "u@x.com" "9.9.9.9" { count := 4, firstAttempt := 0 }
    rfl (by decide) (by decide)
  exact h.1.trans (by decide)

end SoterosLockout
namespace SoterosLockout

theorem upsertRun_count (identifier ip : String) (ts : List Nat) (db : Db) :
    dbCountOf (upsertRun db identifier ip ts) identifier ip =
      dbCountOf db identifier ip + ts.length := by
  induction ts generalizing db with
  | nil => rfl
  | cons t ts ih =>
      unfold upsertRun at ih ⊢
      simp only [List.foldl_cons, List.length_cons]
      rw [ih, dbCountOf_upsert_same]
      omega

theorem record_step_obs (st : LockoutState) (now : Nat) (identifier ip : String)
    (hm : st.recentAttemptsCache.get now ("recent_" ++ getAttemptKey identifier ip) = none)
    (hok : st.dbOk = true)
    (hdur : getLockoutDuration ((dbCountOf st.db identifier ip : Nat) : Int) = 0)
    (hc : cacheCountOf st now (getAttemptKey identifier ip) < MAX_FAILED_ATTEMPTS) :
    (recordFailedAttempt st now identifier ip).2.dbOk = true ∧
    dbCountOf (recordFailedAttempt st now identifier ip).2.db identifier ip =
      dbCountOf st.db identifier ip + 1 ∧
    dbSelect (recordFailedAttempt st now identifier ip).2.db identifier ip =
      some { attempt_count := dbCountOf st.db identifier ip + 1
             created_at := dbFirstOr st.db identifier ip now
             last_attempt := now } ∧
    (∀ u : Nat, (recordFailedAttempt st now identifier ip).2.recentAttemptsCache.get u
        ("recent_" ++ getAttemptKey identifier ip) =
      if u < now + 3000 then some now else none) ∧
    (∀ u : Nat, (recordFailedAttempt st now identifier ip).2.loginAttemptsCache.get u
        (getAttemptKey identifier ip) =
      if u < now + 900000 then
        some { count := dbCountOf st.db identifier ip + 1
               firstAttempt := dbFirstOr st.db identifier ip now }
      else none) ∧
    (∀ u : Nat, cacheCountOf (recordFailedAttempt st now identifier ip).2 u
        (getAttemptKey identifier ip) =
      if u < now + 900000 then dbCountOf st.db identifier ip + 1 else 0) := by
  rw [record_marker_none st now identifier ip hm,
    recordIncrement_clean st now identifier ip hok hdur hc]
  refine ⟨rfl, ?_, ?_, ?_, ?_, ?_⟩
  · exact dbCountOf_upsert_same st.db identifier ip now
  · exact dbSelect_upsert_same st.db identifier ip now
  · intro u
    exact TTLMap.get_set_same _ _ _ _ _
  · intro u
    exact TTLMap.get_set_same _ _ _ _ _
  · intro u
    unfold cacheCountOf
    rw [show ({ loginAttemptsCache := st.loginAttemptsCache.set (getAttemptKey identifier ip) { count := dbCountOf st.db identifier ip + 1, firstAttempt := dbFirstOr st.db identifier ip now } (now + 900000), recentAttemptsCache := st.recentAttemptsCache.set ("recent_" ++ getAttemptKey identifier ip) now (now + 3000), db := dbUpsert st.db identifier ip now, dbOk := true } : LockoutState).loginAttemptsCache.get u (getAttemptKey identifier ip) = if u < now + 900000 then some { count := dbCountOf st.db identifier ip + 1, firstAttempt := dbFirstOr st.db identifier ip now } else none from TTLMap.get_set_same _ _ _ _ _]
    split_ifs <;> rfl

end SoterosLockout
namespace SoterosLockout

/-- C1 counterexample: four `recordFailedAttempt` calls for one fresh key, each issued
outside the dedup window (markers expired at 4000, 8000 and 308000 ms) and outside an
active lockout (the 5-minute lockout raised by the third call has expired by 308000 ms),
end with a durable count of 1, not 4: the claim's "final durable count equals exactly N"
fails at N = 4, because the expiry check resets the window before the fourth increment. -/
theorem C1_final_count_counterexample :
    runA1.2.recentAttemptsCache.get 4000 ("recent_" ++ getAttemptKey "a" "b") = none ∧
    runA2.2.recentAttemptsCache.get 8000 ("recent_" ++ getAttemptKey "a" "b") = none ∧
    runA3.2.recentAttemptsCache.get 308000 ("recent_" ++ getAttemptKey "a" "b") = none ∧
    (checkAccountLockout runA3.2 308000 "a" "b").1.locked = false ∧
    dbCountOf runA4.2.db "a" "b" = 1 ∧ dbCountOf runA4.2.db "a" "b" ≠ 4 := by
  decide

/-- C1 amended: the durable-tier increment is the single atomic insert-or-increment
`dbUpsert`, so no identical-key write is lost at the durable tier — any sequence of N
upserts starting from a key with no row leaves count exactly N, whatever the
interleaved timestamps. Through the full recorder the final durable count equals N
only up to the first lockout threshold (3): from a fresh key, three calls spaced
beyond the dedup window leave count exactly 3; from the third call on the key is
locked, and later calls either do not increment (during the lockout) or reset the
window to count 1 (at expiry), so for N ≥ 4 the final count differs from N. -/
theorem C1_atomic_upsert_no_lost_update :
    (∀ (identifier ip : String) (ts : List Nat),
      dbCountOf (upsertRun emptyDb identifier ip ts) identifier ip = ts.length) ∧
    (∀ (identifier ip : String) (t1 t2 t3 : Nat), t1 + 3000 ≤ t2 → t2 + 3000 ≤ t3 →
      dbCountOf (recordFailedAttempt (recordFailedAttempt (recordFailedAttempt initState
          t1 identifier ip).2 t2 identifier ip).2 t3 identifier ip).2.db
        identifier ip = 3) := by
  constructor
  · intro identifier ip ts
    rw [upsertRun_count identifier ip ts emptyDb]
    have h : dbCountOf emptyDb identifier ip = 0 := rfl
    omega
  · intro identifier ip t1 t2 t3 h12 h23
    have h0 : dbCountOf initState.db identifier ip = 0 := rfl
    obtain ⟨k1, c1, e1, m1, g1, a1⟩ := record_step_obs initState t1 identifier ip rfl rfl rfl
      (show (0 : Nat) < MAX_FAILED_ATTEMPTS by decide)
    obtain ⟨k2, c2, e2, m2, g2, a2⟩ := record_step_obs
      (recordFailedAttempt initState t1 identifier ip).2 t2 identifier ip
      (by rw [m1 t2]; exact if_neg (by omega)) k1
      (by rw [c1, h0]; exact getLockoutDuration_lt3 (by omega))
      (by rw [a1 t2, h0]; split_ifs <;> decide)
    obtain ⟨k3, c3, e3, m3, g3, a3⟩ := record_step_obs
      (recordFailedAttempt (recordFailedAttempt initState t1 identifier ip).2
        t2 identifier ip).2 t3 identifier ip
      (by rw [m2 t3]; exact if_neg (by omega)) k2
      (by rw [c2, c1, h0]; exact getLockoutDuration_lt3 (by omega))
      (by rw [a2 t3, c1, h0]; split_ifs <;> decide)
    omega

/-- C1 witness: three atomic upserts from an empty table leave count 3, and three
recorder calls at 0, 3000 and 6000 ms from the fresh state leave durable count 3. -/
theorem C1_atomic_upsert_no_lost_update_witness :
    dbCountOf (upsertRun emptyDb "a" "b" [0, 10, 20]) "a" "b" = 3 ∧
    dbCountOf (recordFailedAttempt (recordFailedAttempt (recordFailedAttempt initState
        0 "a" "b").2 3000 "a" "b").2 6000 "a" "b").2.db "a" "b" = 3 :=
  ⟨C1_atomic_upsert_no_lost_update.1 "a" "b" [0, 10, 20],
   C1_atomic_upsert_no_lost_update.2 "a" "b" 0 3000 6000 (by decide) (by decide)⟩

end SoterosLockout
namespace SoterosLockout

theorem syncStep_db (st : LockoutState) (now : Nat) (k : String)
    (a0 : Option CacheEntry) (r : DbRecord) : (syncStep st now k a0 r).2.db = st.db := by
  unfold syncStep
  rcases a0 with _ | a
  · rfl
  · by_cases h : a.count < r.attempt_count <;> simp [h]

theorem syncStep_dbOk (st : LockoutState) (now : Nat) (k : String)
    (a0 : Option CacheEntry) (r : DbRecord) : (syncStep st now k a0 r).2.dbOk = st.dbOk := by
  unfold syncStep
  rcases a0 with _ | a
  · rfl
  · by_cases h : a.count < r.attempt_count <;> simp [h]

theorem syncStep_recent (st : LockoutState) (now : Nat) (k : String)
    (a0 : Option CacheEntry) (r : DbRecord) :
    (syncStep st now k a0 r).2.recentAttemptsCache = st.recentAttemptsCache := by
  unfold syncStep
  rcases a0 with _ | a
  · rfl
  · by_cases h : a.count < r.attempt_count <;> simp [h]

theorem syncStep_cache_get (st : LockoutState) (now : Nat) (k : String)
    (a0 : Option CacheEntry) (r : DbRecord)
    (ha : st.loginAttemptsCache.get now k = a0) :
    (syncStep st now k a0 r).2.loginAttemptsCache.get now k = some (syncEntry a0 r) := by
  unfold syncStep syncEntry
  rcases a0 with _ | a
  · simp only []
    rw [show ({ st with loginAttemptsCache := st.loginAttemptsCache.set k { count := r.attempt_count, firstAttempt := r.created_at } (now + 900000) } : LockoutState).loginAttemptsCache.get now k = if now < now + 900000 then some { count := r.attempt_count, firstAttempt := r.created_at } else none from TTLMap.get_set_same _ _ _ _ _]
    rw [if_pos (by omega)]
  · by_cases h : a.count < r.attempt_count
    · simp only [if_pos h]
      rw [show ({ st with loginAttemptsCache := st.loginAttemptsCache.set k { count := r.attempt_count, firstAttempt := r.created_at } (now + 900000) } : LockoutState).loginAttemptsCache.get now k = if now < now + 900000 then some { count := r.attempt_count, firstAttempt := r.created_at } else none from TTLMap.get_set_same _ _ _ _ _]
      rw [if_pos (by omega)]
    · simp only [if_neg h]
      exact ha

theorem clear_db_true (st : LockoutState) (identifier ip : String) (h : st.dbOk = true) :
    (clearFailedAttempts st identifier ip).db = dbDelete st.db identifier ip := by
  unfold clearFailedAttempts
  simp only [h]
  rfl

theorem dbCountOf_delete (db : Db) (identifier ip : String) :
    dbCountOf (dbDelete db identifier ip) identifier ip = 0 := by
  unfold dbCountOf
  rw [dbSelect_delete_same]

theorem recordIncrement_locked (st : LockoutState) (now : Nat) (identifier ip : String)
    {r : DbRecord} (hok : st.dbOk = true) (hr : dbSelect st.db identifier ip = some r)
    (hd : 0 < getLockoutDuration (r.attempt_count : Int))
    (hl : now < r.last_attempt + getLockoutDuration (r.attempt_count : Int)) :
    recordIncrement st now identifier ip =
      ({ locked := true, remainingAttempts := 0,
         lockoutUntil := some (r.last_attempt + getLockoutDuration (r.attempt_count : Int)) },
       (syncStep { st with recentAttemptsCache := st.recentAttemptsCache.set ("recent_" ++ getAttemptKey identifier ip) now (now + 3000) } now (getAttemptKey identifier ip) (st.loginAttemptsCache.get now (getAttemptKey identifier ip)) r).2) := by
  unfold recordIncrement
  simp only []
  rw [check_db_locked { st with recentAttemptsCache := st.recentAttemptsCache.set ("recent_" ++ getAttemptKey identifier ip) now (now + 3000) } now identifier ip hok hr hd hl]
  rfl

end SoterosLockout
namespace SoterosLockout

/-- C3 counterexample: at `lockedStaleState` (durable row locked with count 3 until
301000 ms, stale cached count 1) a `recordFailedAttempt` at 2000 ms returns the locked
decision and leaves the durable count at 3, but the cached attempt count does not stay
unchanged: the read-through sync raises it from 1 to the durable count 3 — refuting
"leaves the stored attempt count unchanged in both the durable tier and the cache". -/
theorem C3_locked_frame_counterexample :
    (recordFailedAttempt lockedStaleState 2000 "a@b.c" "1.1.1.1").1.locked = true ∧
    dbCountOf (recordFailedAttempt lockedStaleState 2000 "a@b.c" "1.1.1.1").2.db
      "a@b.c" "1.1.1.1" = 3 ∧
    lockedStaleState.loginAttemptsCache.get 2000 (getAttemptKey "a@b.c" "1.1.1.1") =
      some { count := 1, firstAttempt := 0 } ∧
    (recordFailedAttempt lockedStaleState 2000 "a@b.c" "1.1.1.1").2.loginAttemptsCache.get
        2000 (getAttemptKey "a@b.c" "1.1.1.1") ≠
      some { count := 1, firstAttempt := 0 } := by
  decide

/-- C3 amended: for every key whose durable row holds an active, unexpired lockout,
`recordFailedAttempt` returns the locked decision (locked, zero remaining attempts,
`lockoutUntil = last_attempt + duration`) and leaves the durable tier unchanged; the
cached count is never incremented, but the checker's read-through sync may refresh an
absent or stale cache entry up to exactly the durable record (`syncEntry`) — when the
cache already holds at least the durable count, it too is unchanged. -/
theorem C3_locked_freezes_counts (st : LockoutState) (now : Nat) (identifier ip : String)
    {r : DbRecord} (hok : st.dbOk = true) (hr : dbSelect st.db identifier ip = some r)
    (hd : 0 < getLockoutDuration (r.attempt_count : Int))
    (hl : now < r.last_attempt + getLockoutDuration (r.attempt_count : Int)) :
    (recordFailedAttempt st now identifier ip).1 =
      { locked := true, remainingAttempts := 0,
        lockoutUntil := some (r.last_attempt + getLockoutDuration (r.attempt_count : Int)) } ∧
    (recordFailedAttempt st now identifier ip).2.db = st.db ∧
    (recordFailedAttempt st now identifier ip).2.loginAttemptsCache.get now
        (getAttemptKey identifier ip) =
      some (syncEntry (st.loginAttemptsCache.get now (getAttemptKey identifier ip)) r) := by
  rcases hm : st.recentAttemptsCache.get now ("recent_" ++ getAttemptKey identifier ip)
    with _ | t
  · rw [record_marker_none st now identifier ip hm,
      recordIncrement_locked st now identifier ip hok hr hd hl]
    exact ⟨rfl, syncStep_db _ _ _ _ _, syncStep_cache_get _ _ _ _ _ rfl⟩
  · by_cases ht : now - t < 3000
    · rw [record_marker_fresh st now identifier ip hm ht,
        check_db_locked st now identifier ip hok hr hd hl]
      exact ⟨rfl, syncStep_db _ _ _ _ _, syncStep_cache_get _ _ _ _ _ rfl⟩
    · rw [record_marker_stale st now identifier ip hm ht,
        recordIncrement_locked st now identifier ip hok hr hd hl]
      exact ⟨rfl, syncStep_db _ _ _ _ _, syncStep_cache_get _ _ _ _ _ rfl⟩

/-- C3 witness: the amended theorem at `lockedStaleState`, 2000 ms: locked decision
until 301000 ms and an unchanged durable tier. -/
theorem C3_locked_freezes_counts_witness :
    (recordFailedAttempt lockedStaleState 2000 "a@b.c" "1.1.1.1").1 =
      { locked := true, remainingAttempts := 0, lockoutUntil := some 301000 } ∧
    (recordFailedAttempt lockedStaleState 2000 "a@b.c" "1.1.1.1").2.db =
      lockedStaleState.db := by
  have h := @C3_locked_freezes_counts lockedStaleState 2000 "a@b.c" "1.1.1.1"
    { attempt_count := 3, created_at := 0, last_attempt := 1000 }
    rfl (by decide) (by decide) (by decide)
  exact ⟨h.1.trans (by decide), h.2.1⟩

end SoterosLockout
namespace SoterosLockout

theorem recordIncrement_after_check (st : LockoutState) (now : Nat) (identifier ip : String)
    {d : Decision} {st2 : LockoutState}
    (hchk : checkAccountLockout { st with recentAttemptsCache := st.recentAttemptsCache.set ("recent_" ++ getAttemptKey identifier ip) now (now + 3000) } now identifier ip = (d, st2))
    (hd : d.locked = false) (hok2 : st2.dbOk = true) :
    recordIncrement st now identifier ip =
      ({ locked := getLockoutDuration ((dbCountOf st2.db identifier ip + 1 : Nat) : Int) > 0
         remainingAttempts :=
           if getLockoutDuration ((dbCountOf st2.db identifier ip + 1 : Nat) : Int) > 0 then 0
           else MAX_FAILED_ATTEMPTS - (dbCountOf st2.db identifier ip + 1)
         lockoutUntil :=
           if getLockoutDuration ((dbCountOf st2.db identifier ip + 1 : Nat) : Int) > 0 then
             some (now + getLockoutDuration ((dbCountOf st2.db identifier ip + 1 : Nat) : Int))
           else none },
       { st2 with
         loginAttemptsCache := st2.loginAttemptsCache.set (getAttemptKey identifier ip) { count := dbCountOf st2.db identifier ip + 1, firstAttempt := dbFirstOr st2.db identifier ip now } (now + 900000)
         db := dbUpsert st2.db identifier ip now }) := by
  unfold recordIncrement
  simp only []
  rw [hchk]
  simp only []
  rw [hd, if_neg Bool.false_ne_true]
  rw [hok2]
  rw [if_pos rfl]
  rw [dbSelect_upsert_same]

/-- C5: for every key whose durable row has expired (now at or past
last_attempt + a positive lockout duration), `checkAccountLockout` deletes the row and
reports unlocked with the full budget of 5, and the next `recordFailedAttempt` (no fresh
dedup marker) starts a fresh window at durable count 1 — not oldCount + 1 — reporting
4 remaining attempts. -/
theorem C5_expiry_resets_window (st : LockoutState) (now : Nat) (identifier ip : String)
    {r : DbRecord} (hok : st.dbOk = true) (hr : dbSelect st.db identifier ip = some r)
    (hd : 0 < getLockoutDuration (r.attempt_count : Int))
    (he : r.last_attempt + getLockoutDuration (r.attempt_count : Int) ≤ now)
    (hm : st.recentAttemptsCache.get now ("recent_" ++ getAttemptKey identifier ip) = none) :
    (checkAccountLockout st now identifier ip).1 =
      { locked := false, remainingAttempts := MAX_FAILED_ATTEMPTS, lockoutUntil := none } ∧
    dbSelect (checkAccountLockout st now identifier ip).2.db identifier ip = none ∧
    dbCountOf (recordFailedAttempt st now identifier ip).2.db identifier ip = 1 ∧
    r.attempt_count + 1 ≠ 1 ∧
    (recordFailedAttempt st now identifier ip).1 =
      { locked := false, remainingAttempts := MAX_FAILED_ATTEMPTS - 1,
        lockoutUntil := none } := by
  have hchk := check_db_expired { st with recentAttemptsCache := st.recentAttemptsCache.set ("recent_" ++ getAttemptKey identifier ip) now (now + 3000) } now identifier ip hok hr hd he
  have hrec := recordIncrement_after_check st now identifier ip hchk rfl hok
  have hclr : dbCountOf (clearFailedAttempts { st with recentAttemptsCache := st.recentAttemptsCache.set ("recent_" ++ getAttemptKey identifier ip) now (now + 3000) } identifier ip).db identifier ip = 0 := by
    rw [clear_db_true { st with recentAttemptsCache := st.recentAttemptsCache.set ("recent_" ++ getAttemptKey identifier ip) now (now + 3000) } identifier ip hok]
    exact dbCountOf_delete _ identifier ip
  have hz : getLockoutDuration ((0 + 1 : Nat) : Int) = 0 := by decide
  refine ⟨?_, ?_, ?_, ?_, ?_⟩
  · rw [check_db_expired st now identifier ip hok hr hd he]
  · rw [check_db_expired st now identifier ip hok hr hd he]
    simp only []
    rw [clear_db_true st identifier ip hok]
    exact dbSelect_delete_same st.db identifier ip
  · rw [record_marker_none st now identifier ip hm, hrec]
    simp only []
    rw [dbCountOf_upsert_same, hclr]
  · have h3 := (getLockoutDuration_pos_iff r.attempt_count).1 hd
    unfold FIRST_LOCKOUT_THRESHOLD at h3
    omega
  · rw [record_marker_none st now identifier ip hm, hrec]
    simp only []
    rw [hclr, hz]
    simp

/-- C5 witness: at `lockedStaleState` seen at 301000 ms (its 5-minute lockout from
1000 ms has just expired) the checker resets the state and the next recorder call
starts a fresh window at durable count 1 with 4 remaining attempts. -/
theorem C5_expiry_resets_window_witness :
    (checkAccountLockout lockedStaleState 301000 "a@b.c" "1.1.1.1").1 =
      { locked := false, remainingAttempts := MAX_FAILED_ATTEMPTS, lockoutUntil := none } ∧
    dbCountOf (recordFailedAttempt lockedStaleState 301000 "a@b.c" "1.1.1.1").2.db
      "a@b.c" "1.1.1.1" = 1 := by
  have h := @C5_expiry_resets_window lockedStaleState 301000 "a@b.c" "1.1.1.1"
    { attempt_count := 3, created_at := 0, last_attempt := 1000 }
    rfl (by decide) (by decide) (by decide) rfl
  exact ⟨h.1, h.2.2.1⟩

end SoterosLockout
namespace SoterosLockout

/-- C6 counterexample: five degraded-mode failures at 0..16000 ms; the fifth recorder
call itself reports lockoutUntil = 16000 + 30 min (measured from the latest failure),
but a subsequent `checkAccountLockout` on the same state reports 0 + 30 min, computed
from firstAttempt — not lastAttemptAt + duration — refuting the claim's "including when
the durable tier is unavailable and the decision is computed from the cache alone". -/
theorem C6_lockoutUntil_counterexample :
    degradedFive.1.lockoutUntil = some (16000 + getLockoutDuration (5 : Int)) ∧
    (checkAccountLockout degradedFive.2 20000 "a" "b").1.locked = true ∧
    (checkAccountLockout degradedFive.2 20000 "a" "b").1.lockoutUntil ≠
      some (16000 + getLockoutDuration (5 : Int)) := by
  decide

/-- C6 amended: for locked records resolved through the durable tier both operations
compute the expiry from the most recent failure — the checker reports
last_attempt + duration, and the recorder's durable path reports now + duration, `now`
being the failure it just recorded (the new last_attempt). In cache-only degraded mode,
however, the checker's locked path reports firstAttempt + duration (the cache stores no
lastAttempt), so there the reported expiry is not lastAttemptAt + duration. -/
theorem C6_lockoutUntil_computation (st : LockoutState) (now : Nat) (identifier ip : String) :
    (∀ r : DbRecord, st.dbOk = true → dbSelect st.db identifier ip = some r →
      0 < getLockoutDuration (r.attempt_count : Int) →
      now < r.last_attempt + getLockoutDuration (r.attempt_count : Int) →
      (checkAccountLockout st now identifier ip).1.lockoutUntil =
        some (r.last_attempt + getLockoutDuration (r.attempt_count : Int))) ∧
    (st.recentAttemptsCache.get now ("recent_" ++ getAttemptKey identifier ip) = none →
      st.dbOk = true →
      getLockoutDuration ((dbCountOf st.db identifier ip : Nat) : Int) = 0 →
      cacheCountOf st now (getAttemptKey identifier ip) < MAX_FAILED_ATTEMPTS →
      0 < getLockoutDuration ((dbCountOf st.db identifier ip + 1 : Nat) : Int) →
      (recordFailedAttempt st now identifier ip).1.lockoutUntil =
        some (now + getLockoutDuration ((dbCountOf st.db identifier ip + 1 : Nat) : Int))) ∧
    (∀ a : CacheEntry, st.dbOk = false →
      st.loginAttemptsCache.get now (getAttemptKey identifier ip) = some a →
      MAX_FAILED_ATTEMPTS ≤ a.count →
      now < a.firstAttempt + getLockoutDuration (a.count : Int) →
      (checkAccountLockout st now identifier ip).1.lockoutUntil =
        some (a.firstAttempt + getLockoutDuration (a.count : Int))) := by
  refine ⟨?_, ?_, ?_⟩
  · intro r hok hr hd hl
    rw [check_db_locked st now identifier ip hok hr hd hl]
  · intro hm hok hdur hc hpos
    rw [record_marker_none st now identifier ip hm,
      recordIncrement_clean st now identifier ip hok hdur hc]
    simp only []
    rw [if_pos hpos]
  · intro a hok ha h5 hl
    rw [check_noDb st now identifier ip hok, ha,
      checkCacheTail_locked st now identifier ip h5 hl]

/-- C6 witness: the three sources evaluated concretely — durable checker at
`lockedStaleState` reports 1000 + 5 min; the recorder at `twoCountState` (count 2 → 3)
reports 1000 + 5 min from the new failure; the degraded checker at
`degradedLockedCacheState` reports firstAttempt 0 + 30 min. -/
theorem C6_lockoutUntil_computation_witness :
    (checkAccountLockout lockedStaleState 2000 "a@b.c" "1.1.1.1").1.lockoutUntil =
      some 301000 ∧
    (recordFailedAttempt twoCountState 1000 "a" "b").1.lockoutUntil = some 301000 ∧
    (checkAccountLockout degradedLockedCacheState 1000 "a" "b").1.lockoutUntil =
      some 1800000 := by
  refine ⟨?_, ?_, ?_⟩
  · exact ((C6_lockoutUntil_computation lockedStaleState 2000 "a@b.c" "1.1.1.1").1
      { attempt_count := 3, created_at := 0, last_attempt := 1000 }
      rfl (by decide) (by decide) (by decide)).trans (by decide)
  · exact ((C6_lockoutUntil_computation twoCountState 1000 "a" "b").2.1
      rfl rfl (by decide) (by decide) (by decide)).trans (by decide)
  · exact ((C6_lockoutUntil_computation degradedLockedCacheState 1000 "a" "b").2.2
      { count := 5, firstAttempt := 0 }
      rfl (by decide) (by decide) (by decide)).trans (by decide)

end SoterosLockout
namespace SoterosLockout

theorem getLockoutDuration_pos_min {n : Nat} (h : 0 < getLockoutDuration (n : Int)) :
    FIRST_LOCKOUT_DURATION ≤ getLockoutDuration (n : Int) := by
  have h3 := (getLockoutDuration_pos_iff n).1 h
  unfold FIRST_LOCKOUT_THRESHOLD at h3
  rcases Nat.lt_or_ge n 5 with h5 | h5
  · rw [getLockoutDuration_mid h3 h5]
  · rw [getLockoutDuration_ge5 h5]
    unfold FIRST_LOCKOUT_DURATION FINAL_LOCKOUT_DURATION
    omega

/-- C4: two `recordFailedAttempt` calls for the same key within the 3-second dedup
window increment the durable count by exactly 1, not 2: the second call sees the fresh
dedup marker left by the first, skips the increment, and returns the result of a fresh
lockout-checker evaluation. -/
theorem C4_dedup_single_increment (st : LockoutState) (t1 t2 : Nat) (identifier ip : String)
    (hm : st.recentAttemptsCache.get t1 ("recent_" ++ getAttemptKey identifier ip) = none)
    (hok : st.dbOk = true)
    (hdur : getLockoutDuration ((dbCountOf st.db identifier ip : Nat) : Int) = 0)
    (hc : cacheCountOf st t1 (getAttemptKey identifier ip) < MAX_FAILED_ATTEMPTS)
    (h12 : t1 ≤ t2) (hw : t2 < t1 + 3000) :
    dbCountOf (recordFailedAttempt (recordFailedAttempt st t1 identifier ip).2
        t2 identifier ip).2.db identifier ip = dbCountOf st.db identifier ip + 1 ∧
    (recordFailedAttempt (recordFailedAttempt st t1 identifier ip).2 t2 identifier ip).1 =
      (checkAccountLockout (recordFailedAttempt st t1 identifier ip).2 t2 identifier ip).1 := by
  obtain ⟨k1, c1, e1, m1, g1, a1⟩ := record_step_obs st t1 identifier ip hm hok hdur hc
  have hfresh : (recordFailedAttempt st t1 identifier ip).2.recentAttemptsCache.get t2
      ("recent_" ++ getAttemptKey identifier ip) = some t1 := by
    rw [m1 t2]
    exact if_pos (by omega)
  have hrec2 := record_marker_fresh (recordFailedAttempt st t1 identifier ip).2 t2
    identifier ip hfresh (by omega)
  refine ⟨?_, by rw [hrec2]⟩
  rw [hrec2]
  by_cases hp : 0 < getLockoutDuration ((dbCountOf st.db identifier ip + 1 : Nat) : Int)
  · have hl : t2 < ({ attempt_count := dbCountOf st.db identifier ip + 1, created_at := dbFirstOr st.db identifier ip t1, last_attempt := t1 } : DbRecord).last_attempt + getLockoutDuration (({ attempt_count := dbCountOf st.db identifier ip + 1, created_at := dbFirstOr st.db identifier ip t1, last_attempt := t1 } : DbRecord).attempt_count : Int) := by
      show t2 < t1 + getLockoutDuration ((dbCountOf st.db identifier ip + 1 : Nat) : Int)
      have hmin := getLockoutDuration_pos_min hp
      unfold FIRST_LOCKOUT_DURATION at hmin
      omega
    rw [check_db_locked _ t2 identifier ip k1 e1 hp hl]
    simp only []
    rw [syncStep_db]
    exact c1
  · have hz : getLockoutDuration (({ attempt_count := dbCountOf st.db identifier ip + 1, created_at := dbFirstOr st.db identifier ip t1, last_attempt := t1 } : DbRecord).attempt_count : Int) = 0 := by
      show getLockoutDuration ((dbCountOf st.db identifier ip + 1 : Nat) : Int) = 0
      omega
    rw [check_db_nolock _ t2 identifier ip k1 e1 hz]
    have hg : (recordFailedAttempt st t1 identifier ip).2.loginAttemptsCache.get t2
        (getAttemptKey identifier ip) =
        some { count := dbCountOf st.db identifier ip + 1
               firstAttempt := dbFirstOr st.db identifier ip t1 } := by
      rw [g1 t2]
      exact if_pos (by omega)
    rw [hg]
    have hn3 : dbCountOf st.db identifier ip + 1 < FIRST_LOCKOUT_THRESHOLD := by
      by_contra hcon
      have := (getLockoutDuration_pos_iff (dbCountOf st.db identifier ip + 1)).2 (by omega)
      omega
    have hse : syncEntry
        (some { count := dbCountOf st.db identifier ip + 1
                firstAttempt := dbFirstOr st.db identifier ip t1 })
        { attempt_count := dbCountOf st.db identifier ip + 1
          created_at := dbFirstOr st.db identifier ip t1, last_attempt := t1 } =
        { count := dbCountOf st.db identifier ip + 1
          firstAttempt := dbFirstOr st.db identifier ip t1 } := by
      simp [syncEntry]
    rw [hse]
    rw [checkCacheTail_low _ t2 identifier ip
      (show ({ count := dbCountOf st.db identifier ip + 1, firstAttempt := dbFirstOr st.db identifier ip t1 } : CacheEntry).count < MAX_FAILED_ATTEMPTS by
        show dbCountOf st.db identifier ip + 1 < MAX_FAILED_ATTEMPTS
        unfold FIRST_LOCKOUT_THRESHOLD at hn3
        unfold MAX_FAILED_ATTEMPTS
        omega)]
    simp only []
    rw [syncStep_db]
    exact c1

/-- C4 witness: from the fresh state, calls at 0 and 1000 ms leave durable count 1. -/
theorem C4_dedup_single_increment_witness :
    dbCountOf (recordFailedAttempt (recordFailedAttempt initState 0 "a" "b").2
      1000 "a" "b").2.db "a" "b" = dbCountOf initState.db "a" "b" + 1 :=
  (C4_dedup_single_increment initState 0 1000 "a" "b" rfl rfl rfl
    (show (0 : Nat) < MAX_FAILED_ATTEMPTS by decide) (by decide) (by decide)).1

end SoterosLockout
namespace SoterosLockout

theorem wfDecision_locked (u : Nat) :
    wfDecision { locked := true, remainingAttempts := 0, lockoutUntil := some u } := by
  refine ⟨Nat.zero_le _, fun _ => ⟨rfl, by simp⟩, fun h => by simp at h⟩

theorem wfDecision_reset :
    wfDecision { locked := false, remainingAttempts := MAX_FAILED_ATTEMPTS, lockoutUntil := none } := by
  refine ⟨le_refl _, fun h => by simp at h, fun _ => rfl⟩

theorem wfDecision_low (n : Nat) :
    wfDecision { locked := false, remainingAttempts := MAX_FAILED_ATTEMPTS - n, lockoutUntil := none } := by
  refine ⟨Nat.sub_le _ _, fun h => by simp at h, fun _ => rfl⟩

theorem wfDecision_ite (n u : Nat) (c : Prop) [inst : Decidable c] :
    wfDecision { locked := decide c
                 remainingAttempts := if c then 0 else MAX_FAILED_ATTEMPTS - n
                 lockoutUntil := if c then some u else none } := by
  by_cases h : c
  · rw [if_pos h, if_pos h, decide_eq_true h]
    exact wfDecision_locked u
  · rw [if_neg h, if_neg h, decide_eq_false h]
    exact wfDecision_low n

theorem wf_checkCacheTail (st : LockoutState) (now : Nat) (identifier ip : String)
    (a0 : Option CacheEntry) : wfDecision (checkCacheTail st now identifier ip a0).1 := by
  unfold checkCacheTail
  rcases a0 with _ | a
  · exact wfDecision_reset
  · simp only []
    split_ifs with h1 h2 h3
    · exact wfDecision_low a.count
    · exact wfDecision_locked _
    · exact wfDecision_reset
    · exact wfDecision_low a.count

theorem wf_check (st : LockoutState) (now : Nat) (identifier ip : String) :
    wfDecision (checkAccountLockout st now identifier ip).1 := by
  unfold checkAccountLockout
  simp only []
  split
  · split
    · split_ifs with h1 h2
      · exact wfDecision_reset
      · exact wfDecision_locked _
      · exact wf_checkCacheTail _ _ _ _ _
    · exact wf_checkCacheTail _ _ _ _ _
  · exact wf_checkCacheTail _ _ _ _ _

theorem wf_recordTail (st : LockoutState) (now : Nat) (k : String) (n fa : Nat) :
    wfDecision (recordTail st now k n fa).1 := by
  unfold recordTail
  simp only []
  exact wfDecision_ite n (now + getLockoutDuration (n : Int)) _

theorem wf_recordIncrement (st : LockoutState) (now : Nat) (identifier ip : String) :
    wfDecision (recordIncrement st now identifier ip).1 := by
  unfold recordIncrement
  simp only []
  split
  · rename_i hlock
    have hwf := wf_check
      { st with recentAttemptsCache := st.recentAttemptsCache.set ("recent_" ++ getAttemptKey identifier ip) now (now + 3000) }
      now identifier ip
    have h2 := hwf.2.1 hlock
    exact ⟨Nat.zero_le _, fun _ => ⟨rfl, h2.2⟩, fun hf => absurd hf (by simp)⟩
  · split
    · split
      · exact wfDecision_ite _ _ _
      · exact wf_recordTail _ _ _ _ _
    · exact wf_recordTail _ _ _ _ _

theorem wf_record (st : LockoutState) (now : Nat) (identifier ip : String) :
    wfDecision (recordFailedAttempt st now identifier ip).1 := by
  unfold recordFailedAttempt
  simp only []
  split
  · split
    · exact wf_check st now identifier ip
    · exact wf_recordIncrement st now identifier ip
  · exact wf_recordIncrement st now identifier ip

end SoterosLockout
namespace SoterosLockout

theorem clear_db_noDb (st : LockoutState) (identifier ip : String) (h : st.dbOk = false) :
    (clearFailedAttempts st identifier ip).db = st.db := by
  unfold clearFailedAttempts
  simp only []
  rw [h, if_neg Bool.false_ne_true]

theorem checkCacheTail_db_noDb (st : LockoutState) (now : Nat) (identifier ip : String)
    (a0 : Option CacheEntry) (h : st.dbOk = false) :
    (checkCacheTail st now identifier ip a0).2.db = st.db := by
  unfold checkCacheTail
  rcases a0 with _ | a
  · rfl
  · simp only []
    split_ifs
    · rfl
    · rfl
    · exact clear_db_noDb st identifier ip h
    · rfl

theorem checkCacheTail_dbOk (st : LockoutState) (now : Nat) (identifier ip : String)
    (a0 : Option CacheEntry) : (checkCacheTail st now identifier ip a0).2.dbOk = st.dbOk := by
  unfold checkCacheTail
  rcases a0 with _ | a
  · rfl
  · simp only []
    split_ifs <;> rfl

theorem check_dbOk (st : LockoutState) (now : Nat) (identifier ip : String) :
    (checkAccountLockout st now identifier ip).2.dbOk = st.dbOk := by
  unfold checkAccountLockout
  simp only []
  split
  · split
    · split_ifs with h1 h2
      · rfl
      · exact syncStep_dbOk _ _ _ _ _
      · rw [checkCacheTail_dbOk]
        exact syncStep_dbOk _ _ _ _ _
    · exact checkCacheTail_dbOk _ _ _ _ _
  · exact checkCacheTail_dbOk _ _ _ _ _

theorem check_db_noDb (st : LockoutState) (now : Nat) (identifier ip : String)
    (h : st.dbOk = false) : (checkAccountLockout st now identifier ip).2.db = st.db := by
  rw [check_noDb st now identifier ip h]
  exact checkCacheTail_db_noDb _ _ _ _ _ h

theorem recordIncrement_db_noDb (st : LockoutState) (now : Nat) (identifier ip : String)
    (h : st.dbOk = false) : (recordIncrement st now identifier ip).2.db = st.db := by
  unfold recordIncrement
  simp only []
  split
  · exact check_db_noDb _ now identifier ip h
  · split
    · rename_i hdb
      exfalso
      rw [check_dbOk] at hdb
      rw [show ({ st with recentAttemptsCache := st.recentAttemptsCache.set ("recent_" ++ getAttemptKey identifier ip) now (now + 3000) } : LockoutState).dbOk = st.dbOk from rfl, h] at hdb
      exact Bool.false_ne_true hdb
    · exact check_db_noDb _ now identifier ip h

theorem record_db_noDb (st : LockoutState) (now : Nat) (identifier ip : String)
    (h : st.dbOk = false) : (recordFailedAttempt st now identifier ip).2.db = st.db := by
  unfold recordFailedAttempt
  simp only []
  split
  · split
    · exact check_db_noDb st now identifier ip h
    · exact recordIncrement_db_noDb st now identifier ip h
  · exact recordIncrement_db_noDb st now identifier ip h

theorem check_noDb_clean (st : LockoutState) (now : Nat) (identifier ip : String)
    (hok : st.dbOk = false)
    (hc : cacheCountOf st now (getAttemptKey identifier ip) < MAX_FAILED_ATTEMPTS) :
    (checkAccountLockout st now identifier ip).1.locked = false ∧
    (checkAccountLockout st now identifier ip).2 = st := by
  rw [check_noDb st now identifier ip hok]
  rcases ha : st.loginAttemptsCache.get now (getAttemptKey identifier ip) with _ | a
  · rw [checkCacheTail_none]
    exact ⟨rfl, rfl⟩
  · rw [checkCacheTail_low st now identifier ip
      (by unfold cacheCountOf at hc; rw [ha] at hc; exact hc)]
    exact ⟨rfl, rfl⟩

theorem recordIncrement_degraded (st : LockoutState) (now : Nat) (identifier ip : String)
    (hok : st.dbOk = false)
    (hc : cacheCountOf st now (getAttemptKey identifier ip) < MAX_FAILED_ATTEMPTS) :
    recordIncrement st now identifier ip =
      ({ locked := decide (getLockoutDuration ((cacheCountOf st now (getAttemptKey identifier ip) + 1 : Nat) : Int) > 0)
         remainingAttempts := if getLockoutDuration ((cacheCountOf st now (getAttemptKey identifier ip) + 1 : Nat) : Int) > 0 then 0 else MAX_FAILED_ATTEMPTS - (cacheCountOf st now (getAttemptKey identifier ip) + 1)
         lockoutUntil := if getLockoutDuration ((cacheCountOf st now (getAttemptKey identifier ip) + 1 : Nat) : Int) > 0 then some (now + getLockoutDuration ((cacheCountOf st now (getAttemptKey identifier ip) + 1 : Nat) : Int)) else none },
       { st with
         loginAttemptsCache := st.loginAttemptsCache.set (getAttemptKey identifier ip) { count := cacheCountOf st now (getAttemptKey identifier ip) + 1, firstAttempt := cacheFirstOr st now (getAttemptKey identifier ip) } (now + 900000)
         recentAttemptsCache := st.recentAttemptsCache.set ("recent_" ++ getAttemptKey identifier ip) now (now + 3000) }) := by
  obtain ⟨hl, hs⟩ := check_noDb_clean
    { st with recentAttemptsCache := st.recentAttemptsCache.set ("recent_" ++ getAttemptKey identifier ip) now (now + 3000) }
    now identifier ip hok hc
  unfold recordIncrement
  simp only []
  rw [hl, if_neg Bool.false_ne_true, hs]
  rw [show ({ st with recentAttemptsCache := st.recentAttemptsCache.set ("recent_" ++ getAttemptKey identifier ip) now (now + 3000) } : LockoutState).dbOk = st.dbOk from rfl, hok, if_neg Bool.false_ne_true]
  rcases ha : st.loginAttemptsCache.get now (getAttemptKey identifier ip) with _ | a
  · unfold recordTail
    simp only []
    rw [TTLMap.set_set_same]
    rw [show cacheCountOf st now (getAttemptKey identifier ip) = 0 from by unfold cacheCountOf; rw [ha]]
    rw [show cacheFirstOr st now (getAttemptKey identifier ip) = now from by unfold cacheFirstOr; rw [ha]]
  · unfold recordTail
    simp only []
    rw [TTLMap.set_set_same]
    rw [show cacheCountOf st now (getAttemptKey identifier ip) = a.count from by unfold cacheCountOf; rw [ha]]
    rw [show cacheFirstOr st now (getAttemptKey identifier ip) = a.firstAttempt from by unfold cacheFirstOr; rw [ha]]

end SoterosLockout
namespace SoterosLockout

theorem cacheCountOf_eq_of_get (s : LockoutState) (now : Nat) (k : String) (v : CacheEntry)
    (h : s.loginAttemptsCache.get now k = some v) : cacheCountOf s now k = v.count := by
  unfold cacheCountOf
  rw [h]

/-- C8: for every state and input — durable tier reachable or not — the recorder and
checker return a well-formed decision object (bounded budget; a locked decision carries
zero remaining attempts and a lockoutUntil; an unlocked one carries none): every
durable-tier error is caught at the statement that raised it. When the durable tier is
down, all three operations leave the durable table untouched and tracking degrades to
the cache: a non-deduplicated, unlocked call increments the cached count by exactly 1. -/
theorem C8_storage_failures_swallowed (st : LockoutState) (now : Nat)
    (identifier ip : String) :
    wfDecision (recordFailedAttempt st now identifier ip).1 ∧
    wfDecision (checkAccountLockout st now identifier ip).1 ∧
    (st.dbOk = false →
      (recordFailedAttempt st now identifier ip).2.db = st.db ∧
      (checkAccountLockout st now identifier ip).2.db = st.db ∧
      (clearFailedAttempts st identifier ip).db = st.db) ∧
    (st.dbOk = false →
      st.recentAttemptsCache.get now ("recent_" ++ getAttemptKey identifier ip) = none →
      cacheCountOf st now (getAttemptKey identifier ip) < MAX_FAILED_ATTEMPTS →
      cacheCountOf (recordFailedAttempt st now identifier ip).2 now
          (getAttemptKey identifier ip) =
        cacheCountOf st now (getAttemptKey identifier ip) + 1) := by
  refine ⟨wf_record st now identifier ip, wf_check st now identifier ip,
    fun h => ⟨record_db_noDb st now identifier ip h, check_db_noDb st now identifier ip h,
      clear_db_noDb st identifier ip h⟩,
    fun h hm hc => ?_⟩
  rw [record_marker_none st now identifier ip hm,
    recordIncrement_degraded st now identifier ip h hc]
  simp only []
  rw [cacheCountOf_eq_of_get _ now _ _ (by
    rw [show ({ st with loginAttemptsCache := st.loginAttemptsCache.set (getAttemptKey identifier ip) { count := cacheCountOf st now (getAttemptKey identifier ip) + 1, firstAttempt := cacheFirstOr st now (getAttemptKey identifier ip) } (now + 900000), recentAttemptsCache := st.recentAttemptsCache.set ("recent_" ++ getAttemptKey identifier ip) now (now + 3000) } : LockoutState).loginAttemptsCache.get now (getAttemptKey identifier ip) = if now < now + 900000 then some { count := cacheCountOf st now (getAttemptKey identifier ip) + 1, firstAttempt := cacheFirstOr st now (getAttemptKey identifier ip) } else none from TTLMap.get_set_same _ _ _ _ _]
    exact if_pos (by omega))]

/-- C8 witness: with the durable tier down, a recorder call at 5 ms from the fresh
degraded state raises the cached count from 0 to 1 and leaves the durable table as it
was. -/
theorem C8_storage_failures_swallowed_witness :
    cacheCountOf (recordFailedAttempt degradedInit 5 "a" "b").2 5 (getAttemptKey "a" "b") =
      cacheCountOf degradedInit 5 (getAttemptKey "a" "b") + 1 ∧
    (recordFailedAttempt degradedInit 5 "a" "b").2.db = degradedInit.db :=
  ⟨(C8_storage_failures_swallowed degradedInit 5 "a" "b").2.2.2 rfl rfl
      (show (0 : Nat) < MAX_FAILED_ATTEMPTS by decide),
   ((C8_storage_failures_swallowed degradedInit 5 "a" "b").2.2.1 rfl).1⟩

end SoterosLockout
